import Mathlib

/-!
Verification of the certificate issuance and verification core of the
`certificategen` repository (`backend/server.js`).

The embedding models:
* the in-memory certificate store (a JavaScript `Map` keyed by certificate id),
* the `POST /api/certificates` issuance handler (validation, uuid generation,
  date computation, record construction, store insertion, PDF rendering
  outcome),
* the `GET /api/verify/:id` verification handler,
* the `uuid` npm package's v4 generator (16 random bytes with RFC 4122
  version/variant masking, rendered as lowercase hex with hyphens),
* the JavaScript `Date.prototype.setFullYear` normalization and the
  `Intl.DateTimeFormat('en-US', \x7bmonth:'long', day:'2-digit', year:'numeric'\x7d)`
  formatting used by `formatDate`,
* the JavaScript `String.prototype.trim` whitespace semantics.

PDF drawing, QR rendering and webcam capture are external collaborators; only
their success/failure outcome is modelled (as booleans consumed by the
handler), matching the try/catch structure of the source.
-/

namespace CertGen

/-- Certificate metadata record stored by the issuance handler
(`certificateStore.set` in `backend/server.js`, lines 284-293). -/
structure CertificateRecord where
  certificateId : String
  learnerName : String
  certificateName : String
  issueDate : String
  expiryDate : String
  trainingPartner : String
  createdAt : String
  verificationUrl : String
deriving DecidableEq

/-- The in-memory store: a JavaScript `Map` from certificate id to record,
modelled as an insertion-ordered association list. -/
abbrev Store := List (String × CertificateRecord)

/-- JavaScript `Map.prototype.get`: the value bound to the key, or
`undefined` (`none`) when absent. -/
def storeGet (s : Store) (id : String) : Option CertificateRecord :=
  match s with
  | [] => none
  | (k, v) :: rest => if k = id then some v else storeGet rest id

/-- JavaScript `Map.prototype.set`: replaces the value in place when the key
is present, otherwise appends a new binding at the end. -/
def storeSet (s : Store) (id : String) (r : CertificateRecord) : Store :=
  match s with
  | [] => [(id, r)]
  | (k, v) :: rest => if k = id then (id, r) :: rest else (k, v) :: storeSet rest id r

/-- The keys of the store, in insertion order. -/
def storeKeys (s : Store) : List String :=
  s.map Prod.fst

/-- A store built from an empty `Map` by a sequence of `set` calls. -/
def buildStore (puts : List (String × CertificateRecord)) : Store :=
  puts.foldl (fun acc p => storeSet acc p.1 p.2) []

/-- Calendar date as held by a JavaScript `Date` in local time: `year`,
zero-based `month` (0 = January, ..., 11 = December) and one-based day of
month. -/
structure JsDate where
  year : Int
  month : Nat
  day : Nat
deriving DecidableEq

/-- Gregorian leap-year rule, as used by the ECMAScript date algorithms. -/
def isLeapYear (y : Int) : Bool :=
  y % 4 == 0 && (y % 100 != 0 || y % 400 == 0)

/-- Number of days in a (zero-based) month of a given year. -/
def daysInMonth (y : Int) (m : Nat) : Nat :=
  if m = 1 then (if isLeapYear y then 29 else 28)
  else if m = 3 ∨ m = 5 ∨ m = 8 ∨ m = 10 then 30
  else 31

/-- A calendar date a JavaScript `Date` can actually hold. -/
def ValidDate (d : JsDate) : Prop :=
  d.month < 12 ∧ 1 ≤ d.day ∧ d.day ≤ daysInMonth d.year d.month

instance (d : JsDate) : Decidable (ValidDate d) := by
  unfold ValidDate; infer_instance

/-- JavaScript `Date.prototype.setFullYear(y)`: the month and day are kept
and the resulting time value is normalized by `MakeDay`.  For every valid
input date the day can overflow the target month by at most the
February-29-into-a-common-year case, so one carry into the following month is
the full normalization. -/
def setFullYear (d : JsDate) (y : Int) : JsDate :=
  if d.day ≤ daysInMonth y d.month then ⟨y, d.month, d.day⟩
  else ⟨y, d.month + 1, d.day - daysInMonth y d.month⟩

/-- English month name of a zero-based month, as produced by
`Intl.DateTimeFormat('en-US', \x7bmonth:'long'\x7d)`. -/
def monthName : Nat → String
  | 0 => "January"
  | 1 => "February"
  | 2 => "March"
  | 3 => "April"
  | 4 => "May"
  | 5 => "June"
  | 6 => "July"
  | 7 => "August"
  | 8 => "September"
  | 9 => "October"
  | 10 => "November"
  | _ => "December"

/-- Two-digit zero-padded day, as produced by the `day:'2-digit'` option. -/
def pad2 (n : Nat) : String :=
  if n < 10 then "0" ++ toString n else toString n

/-- The `formatDate` helper of `backend/server.js` (lines 32-38):
`Intl.DateTimeFormat('en-US', \x7bmonth:'long', day:'2-digit', year:'numeric'\x7d)`,
producing strings such as `February 29, 2024`. -/
def formatDate (d : JsDate) : String :=
  monthName d.month ++ " " ++ pad2 d.day ++ ", " ++ toString d.year

/-- The `YYYYMMDD` rendering of a date, used to state the specification's
claim that identifiers embed a date component in this form. -/
def yyyymmdd (d : JsDate) : String :=
  toString d.year ++ pad2 (d.month + 1) ++ pad2 d.day

/-- ECMAScript whitespace recognised by `String.prototype.trim`:
`WhiteSpace` (TAB, VT, FF, SP, NBSP, ZWNBSP and the Unicode `Space_Separator`
category) together with `LineTerminator` (LF, CR, LS, PS). -/
def isJsWhitespace (c : Char) : Bool :=
  c.toNat = 0x9 || c.toNat = 0xA || c.toNat = 0xB || c.toNat = 0xC ||
  c.toNat = 0xD || c.toNat = 0x20 || c.toNat = 0xA0 || c.toNat = 0x1680 ||
  (0x2000 ≤ c.toNat && c.toNat ≤ 0x200A) || c.toNat = 0x2028 ||
  c.toNat = 0x2029 || c.toNat = 0x202F || c.toNat = 0x205F ||
  c.toNat = 0x3000 || c.toNat = 0xFEFF

/-- JavaScript `String.prototype.trim`: removes leading and trailing
ECMAScript whitespace. -/
def jsTrim (s : String) : String :=
  ⟨((s.data.dropWhile isJsWhitespace).reverse.dropWhile isJsWhitespace).reverse⟩

/-- The sixteen lowercase hexadecimal digits. -/
def hexChars : List Char :=
  (List.range 16).map Nat.digitChar

/-- Lowercase hexadecimal digit of `n % 16` (on `0`-`15`, `Nat.digitChar`
is exactly the lowercase hex digit that JavaScript `toString(16)`
produces). -/
def hexChar (n : Nat) : Char :=
  Nat.digitChar (n % 16)

/-- The `byteToHex` table of the `uuid` package: a byte as two lowercase hex
digits. -/
def byteToHex (n : Nat) : String :=
  ⟨[hexChar (n / 16), hexChar n]⟩

/-- Byte `i` of the random input.  The RNG of the `uuid` package yields a
16-entry byte array; out-of-range reads do not occur at runtime and are
totalized to `0`, and values are reduced mod 256 to the byte range the RNG
guarantees. -/
def byteAt (rnds : List Nat) (i : Nat) : Nat :=
  rnds.getD i 0 % 256

/-- Modelled from the `uuid` npm package consumed at `backend/server.js`
line 273 (a third-party dependency, not part of this repository's sources):
the v4 generator takes 16 random bytes and forces the RFC 4122 version
nibble (`rnds[6] = (rnds[6] & 0x0f) | 0x40`) and variant bits
(`rnds[8] = (rnds[8] & 0x3f) | 0x80`). -/
def v4Bytes (rnds : List Nat) : List Nat :=
  [byteAt rnds 0, byteAt rnds 1, byteAt rnds 2, byteAt rnds 3,
   byteAt rnds 4, byteAt rnds 5,
   byteAt rnds 6 &&& 15 ||| 64, byteAt rnds 7,
   byteAt rnds 8 &&& 63 ||| 128, byteAt rnds 9,
   byteAt rnds 10, byteAt rnds 11, byteAt rnds 12, byteAt rnds 13,
   byteAt rnds 14, byteAt rnds 15]

/-- The `stringify` step of the `uuid` package: the 16 bytes as lowercase
hex, with hyphens after bytes 3, 5, 7 and 9. -/
def stringifyUUID (b : List Nat) : String :=
  byteToHex (b.getD 0 0) ++ byteToHex (b.getD 1 0) ++ byteToHex (b.getD 2 0) ++
    byteToHex (b.getD 3 0) ++ "-" ++
  byteToHex (b.getD 4 0) ++ byteToHex (b.getD 5 0) ++ "-" ++
  byteToHex (b.getD 6 0) ++ byteToHex (b.getD 7 0) ++ "-" ++
  byteToHex (b.getD 8 0) ++ byteToHex (b.getD 9 0) ++ "-" ++
  byteToHex (b.getD 10 0) ++ byteToHex (b.getD 11 0) ++ byteToHex (b.getD 12 0) ++
    byteToHex (b.getD 13 0) ++ byteToHex (b.getD 14 0) ++ byteToHex (b.getD 15 0)

/-- `uuidv4()` as called at `backend/server.js` line 273, as a function of
the 16 random bytes drawn from the CSPRNG. -/
def uuidv4 (rnds : List Nat) : String :=
  stringifyUUID (v4Bytes rnds)

/-- Boolean prefix test on character lists (used to state the
specification's substring claims about identifiers). -/
def isPrefixOfChars : List Char → List Char → Bool
  | [], _ => true
  | _ :: _, [] => false
  | c :: cs, d :: ds => c = d && isPrefixOfChars cs ds

/-- Boolean substring test on character lists. -/
def containsChars (pat : List Char) : List Char → Bool
  | [] => isPrefixOfChars pat []
  | d :: ds => isPrefixOfChars pat (d :: ds) || containsChars pat ds

/-- The `TRAINING_PARTNER` constant of `backend/server.js`. -/
def TRAINING_PARTNER : String :=
  "LearningCurve Institute"

/-- The certification-name prefix constant of `backend/server.js`
(`CERTIFICATION_PREFIX = 'LearningCurve Certified'`). -/
def CERTIFICATION_PFX : String :=
  "LearningCurve Certified"

/-- The parts of a `POST /api/certificates` multipart request the handler
reads: `req.body.name`, `req.body.certificateName` (absent fields read as
`undefined`, i.e. `none`), the uploaded photo (`req.file`, as its bytes),
and the protocol/host used to build the verification URL. -/
structure IssueRequest where
  name : Option String
  certificateName : Option String
  file : Option (List Nat)
  protocol : String
  host : String
deriving DecidableEq

/-- The observable response of the issuance handler: a 400 validation error
`\x7b error \x7d`, a 200 PDF response carrying the `X-Certificate-Id` header, or
the 500 catch-all error of the try/catch. -/
inductive IssueResponse where
  | validationError (status : Nat) (error : String)
  | pdfSuccess (status : Nat) (xCertificateId : String) (contentType : String)
  | serverError (status : Nat) (error : String)
deriving DecidableEq

/-- The JSON response of `GET /api/verify/:id`. -/
structure VerifyResponse where
  status : Nat
  valid : Bool
  message : String
  certificate : Option CertificateRecord
deriving DecidableEq

/-- The record built by the issuance handler (`backend/server.js` lines
273-293) from the request, the random bytes, the current date and the
ISO timestamp taken at insertion time. -/
def issueRecord (req : IssueRequest) (rnds : List Nat) (now : JsDate)
    (nowIso : String) : CertificateRecord :=
  let learnerName := jsTrim (req.name.getD "")
  let requestedCertificateName := jsTrim (req.certificateName.getD "")
  let certificateId := uuidv4 rnds
  { certificateId := certificateId
    learnerName := learnerName
    certificateName := jsTrim (CERTIFICATION_PFX ++ " " ++ requestedCertificateName)
    issueDate := formatDate now
    expiryDate := formatDate (setFullYear now (now.year + 2))
    trainingPartner := TRAINING_PARTNER
    createdAt := nowIso
    verificationUrl := req.protocol ++ "://" ++ req.host ++ "/api/verify/" ++ certificateId }

/-- The `POST /api/certificates` handler (`backend/server.js` lines
255-326) as a function of the store, the request, the 16 random bytes the
uuid generator draws, the current date, the ISO timestamp, and the outcomes
of the two external collaborators: `qrOk` is whether `QRCode.toDataURL`
succeeds (it runs after id generation, before the store insertion) and
`renderOk` is whether PDF construction succeeds (it runs after the
insertion).  A collaborator failure lands in the catch block, which answers
500 with the fixed error message.  Returns the response and the store after
the request. -/
def issuanceHandler (store : Store) (req : IssueRequest) (rnds : List Nat)
    (now : JsDate) (nowIso : String) (qrOk : Bool) (renderOk : Bool) :
    IssueResponse × Store :=
  let learnerName := jsTrim (req.name.getD "")
  let requestedCertificateName := jsTrim (req.certificateName.getD "")
  if learnerName = "" then
    (.validationError 400 "Learner name is required.", store)
  else if requestedCertificateName = "" then
    (.validationError 400 "Certificate name is required.", store)
  else if req.file.isNone then
    (.validationError 400 "Exam image is required.", store)
  else
    let certificateId := uuidv4 rnds
    if qrOk = false then
      (.serverError 500 "Failed to generate certificate PDF.", store)
    else
      let record := issueRecord req rnds now nowIso
      let store' := storeSet store certificateId record
      if renderOk then
        (.pdfSuccess 200 certificateId "application/pdf", store')
      else
        (.serverError 500 "Failed to generate certificate PDF.", store')

/-- The `GET /api/verify/:id` handler (`backend/server.js` lines 329-341). -/
def verifyHandler (store : Store) (id : String) : VerifyResponse :=
  match storeGet store id with
  | none => ⟨404, false, "Certificate not found.", none⟩
  | some certificate => ⟨200, true, "Certificate is valid.", some certificate⟩

/-- A request that passes all three validation checks of the issuance
handler. -/
def ValidRequest (req : IssueRequest) : Prop :=
  jsTrim (req.name.getD "") ≠ "" ∧ jsTrim (req.certificateName.getD "") ≠ "" ∧
    req.file.isNone = false

instance (req : IssueRequest) : Decidable (ValidRequest req) := by
  unfold ValidRequest; infer_instance

/-- The validation error message the issuance handler produces for a request
failing validation (first failing check wins, mirroring the order of the
early returns in the source). -/
def validationMsg (req : IssueRequest) : String :=
  if jsTrim (req.name.getD "") = "" then "Learner name is required."
  else if jsTrim (req.certificateName.getD "") = "" then "Certificate name is required."
  else "Exam image is required."

/-- Sample certificate record, used as a concrete input in witnesses. -/
def sampleRecord : CertificateRecord :=
  { certificateId := "id-1"
    learnerName := "Jane Doe"
    certificateName := "LearningCurve Certified Data Engineering"
    issueDate := "October 11, 2025"
    expiryDate := "October 11, 2027"
    trainingPartner := TRAINING_PARTNER
    createdAt := "2025-10-11T00:00:00.000Z"
    verificationUrl := "http://localhost:3000/api/verify/id-1" }

/-- A second sample record differing from the first, used to exhibit
overwrites. -/
def sampleRecord2 : CertificateRecord :=
  { sampleRecord with learnerName := "John Roe" }

/-- Sample issuance request with a padded name, used as a concrete input in
witnesses. -/
def sampleRequest : IssueRequest :=
  { name := some "  Jane Doe "
    certificateName := some " Data Engineering "
    file := some [1, 2, 3]
    protocol := "http"
    host := "localhost:3000" }

/-- Sample issuance request whose name is whitespace only. -/
def blankNameRequest : IssueRequest :=
  { name := some "   "
    certificateName := some "Data Engineering"
    file := some [1, 2, 3]
    protocol := "http"
    host := "localhost:3000" }

/-- Sample 16-byte random input (every byte `0xab`). -/
def sampleBytes : List Nat :=
  List.replicate 16 171

/-- A second sample random input, differing from `sampleBytes` in unmasked
bits. -/
def sampleBytes2 : List Nat :=
  List.replicate 16 172

/-- Sample ISO timestamp. -/
def sampleIso : String :=
  "2025-10-11T00:00:00.000Z"

/-! ### Store lemmas -/

theorem storeGet_storeSet_self (s : Store) (id : String) (r : CertificateRecord) :
    storeGet (storeSet s id r) id = some r := by
  induction s with
  | nil => simp [storeSet, storeGet]
  | cons hd tl ih =>
    obtain ⟨k, v⟩ := hd
    by_cases h : k = id
    · simp [storeSet, storeGet, h]
    · simp [storeSet, storeGet, h, ih]

theorem storeGet_storeSet_ne (s : Store) (id id' : String) (r : CertificateRecord)
    (h : id ≠ id') : storeGet (storeSet s id r) id' = storeGet s id' := by
  have h' : ¬(id = id') := h
  induction s with
  | nil => simp [storeSet, storeGet, h']
  | cons hd tl ih =>
    obtain ⟨k, v⟩ := hd
    by_cases hk : k = id
    · subst hk
      simp [storeSet, storeGet, h']
    · simp [storeSet, storeGet, hk, ih]

theorem storeGet_eq_none_of_notMem (s : Store) (id : String)
    (h : id ∉ storeKeys s) : storeGet s id = none := by
  induction s with
  | nil => simp [storeGet]
  | cons hd tl ih =>
    obtain ⟨k, v⟩ := hd
    simp only [storeKeys, List.map_cons, List.mem_cons] at h
    push_neg at h
    have hk : ¬(k = id) := fun he => h.1 he.symm
    have htl : id ∉ storeKeys tl := by simpa [storeKeys] using h.2
    simp [storeGet, hk, ih htl]

theorem notMem_storeKeys_of_storeGet_eq_none (s : Store) (id : String)
    (h : storeGet s id = none) : id ∉ storeKeys s := by
  induction s with
  | nil => simp [storeKeys]
  | cons hd tl ih =>
    obtain ⟨k, v⟩ := hd
    by_cases hk : k = id
    · simp [storeGet, hk] at h
    · simp only [storeGet, if_neg hk] at h
      simp only [storeKeys, List.map_cons, List.mem_cons]
      push_neg
      refine ⟨fun he => hk he.symm, ?_⟩
      simpa [storeKeys] using ih h

theorem storeKeys_storeSet_fresh (s : Store) (id : String) (r : CertificateRecord)
    (h : storeGet s id = none) : storeKeys (storeSet s id r) = storeKeys s ++ [id] := by
  induction s with
  | nil => simp [storeSet, storeKeys]
  | cons hd tl ih =>
    obtain ⟨k, v⟩ := hd
    by_cases hk : k = id
    · simp [storeGet, hk] at h
    · simp only [storeGet, if_neg hk] at h
      have htl := ih h
      simp only [storeKeys, List.map_cons] at htl ⊢
      simp [storeSet, hk, htl]

theorem storeGet_buildStore_notMem (puts : List (String × CertificateRecord))
    (id : String) (h : id ∉ puts.map Prod.fst) : storeGet (buildStore puts) id = none := by
  suffices H : ∀ acc : Store, storeGet acc id = none →
      storeGet (puts.foldl (fun acc p => storeSet acc p.1 p.2) acc) id = none by
    exact H [] rfl
  induction puts with
  | nil =>
    intro acc hacc
    simpa using hacc
  | cons hd tl ih =>
    intro acc hacc
    simp only [List.map_cons, List.mem_cons] at h
    push_neg at h
    simp only [List.foldl_cons]
    exact ih h.2 _ (by rw [storeGet_storeSet_ne _ _ _ _ (fun he => h.1 he.symm)]; exact hacc)

/-! ### Hex digit and uuid lemmas -/

theorem hexChar_eq_mod (n : Nat) : hexChar n = hexChar (n % 16) := by
  have h : n % 16 % 16 = n % 16 := by omega
  unfold hexChar
  rw [h]

theorem hexChar_mem_hexChars (n : Nat) : hexChar n ∈ hexChars := by
  unfold hexChar hexChars
  exact List.mem_map_of_mem _ (List.mem_range.2 (by omega))

theorem hexChar_inj_lt :
    ∀ a, a < 16 → ∀ c, c < 16 → hexChar a = hexChar c → a = c := by
  decide

theorem byteAt_lt (rnds : List Nat) (i : Nat) : byteAt rnds i < 256 :=
  Nat.mod_lt _ (by omega)

theorem and15_lt (n : Nat) : n &&& 15 < 16 :=
  Nat.lt_succ_of_le (Nat.and_le_right)

theorem and63_lt (n : Nat) : n &&& 63 < 64 :=
  Nat.lt_succ_of_le (Nat.and_le_right)

theorem or64_hex (n : Nat) : hexChar ((n &&& 15 ||| 64) / 16) = '4' := by
  have h : n &&& 15 < 16 := and15_lt n
  revert h
  generalize n &&& 15 = k
  revert k
  decide

theorem or128_hex (n : Nat) :
    hexChar ((n &&& 63 ||| 128) / 16) ∈ ['8', '9', 'a', 'b'] := by
  have h : n &&& 63 < 64 := and63_lt n
  revert h
  generalize n &&& 63 = k
  revert k
  decide

theorem or64_lt (n : Nat) : n &&& 15 ||| 64 < 256 := by
  have h : n &&& 15 < 16 := and15_lt n
  revert h
  generalize n &&& 15 = k
  revert k
  decide

theorem or128_lt (n : Nat) : n &&& 63 ||| 128 < 256 := by
  have h : n &&& 63 < 64 := and63_lt n
  revert h
  generalize n &&& 63 = k
  revert k
  decide

theorem byteToHex_data (n : Nat) :
    (byteToHex n).data = [hexChar (n / 16), hexChar n] :=
  rfl

theorem dash_data : ("-" : String).data = ['-'] :=
  rfl

theorem stringify_v4Bytes (b : List Nat) : stringifyUUID (v4Bytes b) =
    byteToHex (byteAt b 0) ++ byteToHex (byteAt b 1) ++ byteToHex (byteAt b 2) ++
      byteToHex (byteAt b 3) ++ "-" ++
    byteToHex (byteAt b 4) ++ byteToHex (byteAt b 5) ++ "-" ++
    byteToHex (byteAt b 6 &&& 15 ||| 64) ++ byteToHex (byteAt b 7) ++ "-" ++
    byteToHex (byteAt b 8 &&& 63 ||| 128) ++ byteToHex (byteAt b 9) ++ "-" ++
    byteToHex (byteAt b 10) ++ byteToHex (byteAt b 11) ++ byteToHex (byteAt b 12) ++
      byteToHex (byteAt b 13) ++ byteToHex (byteAt b 14) ++ byteToHex (byteAt b 15) :=
  rfl

/-- The rendered uuid, character by character. -/
theorem uuid_data (b : List Nat) : (uuidv4 b).data =
    [hexChar (byteAt b 0 / 16), hexChar (byteAt b 0),
     hexChar (byteAt b 1 / 16), hexChar (byteAt b 1),
     hexChar (byteAt b 2 / 16), hexChar (byteAt b 2),
     hexChar (byteAt b 3 / 16), hexChar (byteAt b 3),
     '-',
     hexChar (byteAt b 4 / 16), hexChar (byteAt b 4),
     hexChar (byteAt b 5 / 16), hexChar (byteAt b 5),
     '-',
     hexChar ((byteAt b 6 &&& 15 ||| 64) / 16), hexChar (byteAt b 6 &&& 15 ||| 64),
     hexChar (byteAt b 7 / 16), hexChar (byteAt b 7),
     '-',
     hexChar ((byteAt b 8 &&& 63 ||| 128) / 16), hexChar (byteAt b 8 &&& 63 ||| 128),
     hexChar (byteAt b 9 / 16), hexChar (byteAt b 9),
     '-',
     hexChar (byteAt b 10 / 16), hexChar (byteAt b 10),
     hexChar (byteAt b 11 / 16), hexChar (byteAt b 11),
     hexChar (byteAt b 12 / 16), hexChar (byteAt b 12),
     hexChar (byteAt b 13 / 16), hexChar (byteAt b 13),
     hexChar (byteAt b 14 / 16), hexChar (byteAt b 14),
     hexChar (byteAt b 15 / 16), hexChar (byteAt b 15)] := by
  rw [uuidv4, stringify_v4Bytes]
  simp only [String.data_append, byteToHex_data, dash_data, List.cons_append,
    List.nil_append]

theorem hexPair_inj (x y : Nat) (hx : x < 256) (hy : y < 256)
    (h1 : hexChar (x / 16) = hexChar (y / 16)) (h2 : hexChar x = hexChar y) :
    x = y := by
  have e2 : x % 16 = y % 16 := by
    refine hexChar_inj_lt _ (by omega) _ (by omega) ?_
    rw [← hexChar_eq_mod, ← hexChar_eq_mod]
    exact h2
  have e1 : x / 16 = y / 16 :=
    hexChar_inj_lt _ (by omega) _ (by omega) h1
  omega

/-- The uuid string determines the sixteen masked bytes. -/
theorem uuid_inj (b b' : List Nat) (h : uuidv4 b = uuidv4 b') :
    v4Bytes b = v4Bytes b' := by
  have hd := congrArg String.data h
  rw [uuid_data, uuid_data] at hd
  simp only [List.cons.injEq, eq_self_iff_true, true_and, and_true] at hd
  obtain ⟨h0a, h0b, h1a, h1b, h2a, h2b, h3a, h3b, h4a, h4b, h5a, h5b,
    h6a, h6b, h7a, h7b, h8a, h8b, h9a, h9b, h10a, h10b, h11a, h11b,
    h12a, h12b, h13a, h13b, h14a, h14b, h15a, h15b⟩ := hd
  have e0 := hexPair_inj _ _ (byteAt_lt b 0) (byteAt_lt b' 0) h0a h0b
  have e1 := hexPair_inj _ _ (byteAt_lt b 1) (byteAt_lt b' 1) h1a h1b
  have e2 := hexPair_inj _ _ (byteAt_lt b 2) (byteAt_lt b' 2) h2a h2b
  have e3 := hexPair_inj _ _ (byteAt_lt b 3) (byteAt_lt b' 3) h3a h3b
  have e4 := hexPair_inj _ _ (byteAt_lt b 4) (byteAt_lt b' 4) h4a h4b
  have e5 := hexPair_inj _ _ (byteAt_lt b 5) (byteAt_lt b' 5) h5a h5b
  have e6 := hexPair_inj _ _ (or64_lt (byteAt b 6)) (or64_lt (byteAt b' 6)) h6a h6b
  have e7 := hexPair_inj _ _ (byteAt_lt b 7) (byteAt_lt b' 7) h7a h7b
  have e8 := hexPair_inj _ _ (or128_lt (byteAt b 8)) (or128_lt (byteAt b' 8)) h8a h8b
  have e9 := hexPair_inj _ _ (byteAt_lt b 9) (byteAt_lt b' 9) h9a h9b
  have e10 := hexPair_inj _ _ (byteAt_lt b 10) (byteAt_lt b' 10) h10a h10b
  have e11 := hexPair_inj _ _ (byteAt_lt b 11) (byteAt_lt b' 11) h11a h11b
  have e12 := hexPair_inj _ _ (byteAt_lt b 12) (byteAt_lt b' 12) h12a h12b
  have e13 := hexPair_inj _ _ (byteAt_lt b 13) (byteAt_lt b' 13) h13a h13b
  have e14 := hexPair_inj _ _ (byteAt_lt b 14) (byteAt_lt b' 14) h14a h14b
  have e15 := hexPair_inj _ _ (byteAt_lt b 15) (byteAt_lt b' 15) h15a h15b
  simp only [v4Bytes, e0, e1, e2, e3, e4, e5, e6, e7, e8, e9, e10, e11, e12,
    e13, e14, e15]

/-! ### Date lemmas -/

theorem isLeapYear_add_two (y : Int) (h : isLeapYear y = true) :
    isLeapYear (y + 2) = false := by
  simp only [isLeapYear, Bool.and_eq_true, beq_iff_eq, Bool.or_eq_true,
    bne_iff_ne, ne_eq] at h
  simp only [isLeapYear, Bool.and_eq_false_iff, beq_eq_false_iff_ne, ne_eq]
  left
  omega

theorem isLeapYear_of_feb29_valid (y : Int) (h : ValidDate ⟨y, 1, 29⟩) :
    isLeapYear y = true := by
  obtain ⟨-, -, hd⟩ := h
  by_contra hleap
  simp only [Bool.not_eq_true] at hleap
  simp [daysInMonth, hleap] at hd

theorem setFullYear_not_feb29 (d : JsDate) (y : Int) (hv : ValidDate d)
    (h : ¬(d.month = 1 ∧ d.day = 29)) :
    setFullYear d y = ⟨y, d.month, d.day⟩ := by
  obtain ⟨hm, hd1, hd2⟩ := hv
  have hcond : d.day ≤ daysInMonth y d.month := by
    by_cases hmq : d.month = 1
    · have hne : d.day ≠ 29 := fun he => h ⟨hmq, he⟩
      have hday : d.day ≤ 29 := by
        have h2 := hd2
        simp [daysInMonth, hmq] at h2
        split at h2 <;> omega
      have h28 : d.day ≤ 28 := by omega
      simp [daysInMonth, hmq]
      split <;> omega
    · have heq : daysInMonth y d.month = daysInMonth d.year d.month := by
        simp [daysInMonth, hmq]
      rw [heq]
      exact hd2
  simp [setFullYear, hcond]

theorem setFullYear_feb29 (y : Int) (hleap : isLeapYear y = true) :
    setFullYear ⟨y, 1, 29⟩ (y + 2) = ⟨y + 2, 2, 1⟩ := by
  have hl2 : isLeapYear (y + 2) = false := isLeapYear_add_two y hleap
  simp [setFullYear, daysInMonth, hl2]

theorem formatDate_ne_empty (d : JsDate) : formatDate d ≠ "" := by
  intro h
  have hd := congrArg String.data h
  rw [formatDate] at hd
  simp only [String.data_append] at hd
  simp at hd

/-! ### Handler lemmas -/

theorem verifyHandler_eq_of_get_some (store : Store) (id : String)
    (rec : CertificateRecord) (h : storeGet store id = some rec) :
    verifyHandler store id = ⟨200, true, "Certificate is valid.", some rec⟩ := by
  unfold verifyHandler
  rw [h]

theorem verifyHandler_eq_of_get_none (store : Store) (id : String)
    (h : storeGet store id = none) :
    verifyHandler store id = ⟨404, false, "Certificate not found.", none⟩ := by
  unfold verifyHandler
  rw [h]

theorem issuanceHandler_valid (store : Store) (req : IssueRequest)
    (rnds : List Nat) (now : JsDate) (nowIso : String) (renderOk : Bool)
    (hreq : ValidRequest req) :
    issuanceHandler store req rnds now nowIso true renderOk =
      ((if renderOk then
          IssueResponse.pdfSuccess 200 (uuidv4 rnds) "application/pdf"
        else
          IssueResponse.serverError 500 "Failed to generate certificate PDF."),
       storeSet store (uuidv4 rnds) (issueRecord req rnds now nowIso)) := by
  obtain ⟨hname, hcert, hfile⟩ := hreq
  unfold issuanceHandler
  by_cases hr : renderOk <;> simp [hname, hcert, hfile, hr]

theorem issuanceHandler_invalid (store : Store) (req : IssueRequest)
    (rnds : List Nat) (now : JsDate) (nowIso : String) (qrOk renderOk : Bool)
    (hreq : ¬ValidRequest req) :
    issuanceHandler store req rnds now nowIso qrOk renderOk =
      (IssueResponse.validationError 400 (validationMsg req), store) := by
  unfold issuanceHandler validationMsg
  by_cases hname : jsTrim (req.name.getD "") = ""
  · simp [hname]
  · by_cases hcert : jsTrim (req.certificateName.getD "") = ""
    · simp [hname, hcert]
    · have hfile : req.file.isNone = true := by
        cases hb : req.file.isNone
        · exact absurd ⟨hname, hcert, hb⟩ hreq
        · rfl
      simp [hname, hcert, hfile]

/-! ### Claims -/

/-- C1: `put(id, record)` (`certificateStore.set` at issuance) followed
immediately by `get(id)` (the verification lookup) returns a record equal to
the one inserted, and the verification response for the present id carries
`valid:true` with status 200 and the stored record. -/
theorem C1_put_get_roundtrip (s : Store) (id : String) (r : CertificateRecord) :
    storeGet (storeSet s id r) id = some r ∧
    verifyHandler (storeSet s id r) id =
      ⟨200, true, "Certificate is valid.", some r⟩ :=
  ⟨storeGet_storeSet_self s id r,
   verifyHandler_eq_of_get_some _ _ _ (storeGet_storeSet_self s id r)⟩

/-- C3: for every identifier never inserted into a store built from any
sequence of `put` calls, `get` returns `none` and the verification handler
returns the defined not-found outcome — `valid:false` with status 404 and
the fixed message — which is distinct from an internal failure (status is
not 500); the handler is a total function, so it never throws. -/
theorem C3_get_never_inserted (puts : List (String × CertificateRecord))
    (id : String) (h : id ∉ puts.map Prod.fst) :
    storeGet (buildStore puts) id = none ∧
    verifyHandler (buildStore puts) id =
      ⟨404, false, "Certificate not found.", none⟩ ∧
    (verifyHandler (buildStore puts) id).status ≠ 500 := by
  have hg := storeGet_buildStore_notMem puts id h
  have hv := verifyHandler_eq_of_get_none _ _ hg
  exact ⟨hg, hv, by rw [hv]; decide⟩

/-- C3 witness: a store holding one certificate, looked up at an identifier
that was never inserted. -/
theorem C3_get_never_inserted_witness :
    "nope" ∉ [("id-1", sampleRecord)].map Prod.fst ∧
    verifyHandler (buildStore [("id-1", sampleRecord)]) "nope" =
      ⟨404, false, "Certificate not found.", none⟩ :=
  ⟨by decide, (C3_get_never_inserted [("id-1", sampleRecord)] "nope" (by decide)).2.1⟩

/-- C4: for every issuance request failing validation (missing or
whitespace-only name, missing certificate name, or missing photo) the
handler returns the 400 structured error, the store is unchanged, and the
result does not depend on the random bytes — no identifier is generated and
no record is stored. -/
theorem C4_validation_no_side_effects (s : Store) (req : IssueRequest)
    (rnds : List Nat) (now : JsDate) (nowIso : String) (qrOk renderOk : Bool)
    (h : jsTrim (req.name.getD "") = "" ∨ jsTrim (req.certificateName.getD "") = "" ∨
      req.file = none) :
    (issuanceHandler s req rnds now nowIso qrOk renderOk).1 =
      IssueResponse.validationError 400 (validationMsg req) ∧
    (issuanceHandler s req rnds now nowIso qrOk renderOk).2 = s ∧
    ∀ rnds', issuanceHandler s req rnds now nowIso qrOk renderOk =
      issuanceHandler s req rnds' now nowIso qrOk renderOk := by
  have hreq : ¬ValidRequest req := by
    rcases h with h | h | h
    · exact fun hv => hv.1 h
    · exact fun hv => hv.2.1 h
    · intro hv
      have hn := hv.2.2
      rw [h] at hn
      exact absurd hn (by decide)
  rw [issuanceHandler_invalid s req rnds now nowIso qrOk renderOk hreq]
  refine ⟨rfl, rfl, fun rnds' => ?_⟩
  rw [issuanceHandler_invalid s req rnds' now nowIso qrOk renderOk hreq]

/-- C4 witness: issuing with a whitespace-only name leaves the empty store
empty and reports the validation error. -/
theorem C4_validation_no_side_effects_witness :
    jsTrim "   " = "" ∧
    (issuanceHandler [] blankNameRequest sampleBytes ⟨2025, 9, 11⟩ sampleIso
        true true).2 = [] :=
  ⟨by decide,
   (C4_validation_no_side_effects [] blankNameRequest sampleBytes ⟨2025, 9, 11⟩
     sampleIso true true (Or.inl (by decide))).2.1⟩

/-- C5 counterexample: the store's `put` is JavaScript `Map.set`, which on a
key already present silently replaces the stored record — it is neither a
fatal error nor a no-op, so "never silently overwrites an existing record"
fails on the code. -/
theorem C5_counterexample :
    sampleRecord ≠ sampleRecord2 ∧
    storeGet (storeSet [("id-1", sampleRecord)] "id-1" sampleRecord2) "id-1" =
      some sampleRecord2 := by
  decide

/-- C5 amended: under the stated precondition that the id is not already
present, `put` behaves write-once read-many: it preserves every existing
binding unchanged (no record is mutated or deleted), makes the new record
retrievable, and keeps the store's keys — the `certificateId`s — unique. -/
theorem C5_write_once (s : Store) (id : String) (r : CertificateRecord)
    (hfresh : storeGet s id = none) :
    (∀ id' r', storeGet s id' = some r' →
      storeGet (storeSet s id r) id' = some r') ∧
    storeGet (storeSet s id r) id = some r ∧
    ((storeKeys s).Nodup → (storeKeys (storeSet s id r)).Nodup) := by
  refine ⟨?_, storeGet_storeSet_self s id r, ?_⟩
  · intro id' r' hid'
    by_cases he : id = id'
    · subst he
      rw [hfresh] at hid'
      cases hid'
    · rw [storeGet_storeSet_ne s id id' r he]
      exact hid'
  · intro hnd
    rw [storeKeys_storeSet_fresh s id r hfresh]
    have hnm := notMem_storeKeys_of_storeGet_eq_none s id hfresh
    simp [List.nodup_append, hnd, hnm]

/-- C5 witness: a fresh insertion into a one-record store preserves the
existing record. -/
theorem C5_write_once_witness :
    storeGet [("id-1", sampleRecord)] "id-2" = none ∧
    storeGet (storeSet [("id-1", sampleRecord)] "id-2" sampleRecord2) "id-1" =
      some sampleRecord :=
  ⟨by decide,
   (C5_write_once [("id-1", sampleRecord)] "id-2" sampleRecord2 (by decide)).1
     "id-1" sampleRecord (by decide)⟩

/-- C6: every successful issuance responds with the rendered PDF
(`Content-Type: application/pdf`, status 200) and the out-of-band header
`X-Certificate-Id` whose value is exactly the identifier under which the
record was stored: the id resolves in the resulting store to a record whose
`certificateId` is that same identifier. -/
theorem C6_success_header (s : Store) (req : IssueRequest) (rnds : List Nat)
    (now : JsDate) (nowIso : String) (hreq : ValidRequest req) :
    ∃ rec : CertificateRecord,
      (issuanceHandler s req rnds now nowIso true true).1 =
        IssueResponse.pdfSuccess 200 (uuidv4 rnds) "application/pdf" ∧
      storeGet (issuanceHandler s req rnds now nowIso true true).2 (uuidv4 rnds) =
        some rec ∧
      rec.certificateId = uuidv4 rnds := by
  refine ⟨issueRecord req rnds now nowIso, ?_, ?_, rfl⟩
  · rw [issuanceHandler_valid s req rnds now nowIso true hreq]
    rfl
  · rw [issuanceHandler_valid s req rnds now nowIso true hreq]
    exact storeGet_storeSet_self _ _ _

/-- C6 witness: a concrete successful issuance carries its stored id in the
response. -/
theorem C6_success_header_witness :
    ValidRequest sampleRequest ∧
    ∃ rec : CertificateRecord,
      (issuanceHandler [] sampleRequest sampleBytes ⟨2025, 9, 11⟩ sampleIso
          true true).1 =
        IssueResponse.pdfSuccess 200 (uuidv4 sampleBytes) "application/pdf" ∧
      storeGet (issuanceHandler [] sampleRequest sampleBytes ⟨2025, 9, 11⟩
          sampleIso true true).2 (uuidv4 sampleBytes) = some rec ∧
      rec.certificateId = uuidv4 sampleBytes :=
  ⟨by decide,
   C6_success_header [] sampleRequest sampleBytes ⟨2025, 9, 11⟩ sampleIso
     (by decide)⟩

/-- C7 counterexample: the generator is not injective in its random input —
two distinct 16-byte random inputs that agree outside the masked
version/variant bits produce the same identifier, so "for any two distinct
values of its random input, the produced identifiers are distinct" fails. -/
theorem C7_counterexample :
    (List.replicate 16 0 : List Nat) ≠
      [0, 0, 0, 0, 0, 0, 64, 0, 0, 0, 0, 0, 0, 0, 0, 0] ∧
    uuidv4 (List.replicate 16 0) =
      uuidv4 [0, 0, 0, 0, 0, 0, 64, 0, 0, 0, 0, 0, 0, 0, 0, 0] := by
  decide

/-- C7 amended: whenever the two random inputs differ after the RFC 4122
version/variant masking (in particular whenever they differ in any unmasked
bit), the produced identifiers are distinct, and two back-to-back issuances
with such inputs yield distinct identifiers that both independently resolve
via the verification lookup. -/
theorem C7_distinct_ids (s : Store) (r1 r2 : IssueRequest) (b1 b2 : List Nat)
    (d1 d2 : JsDate) (i1 i2 : String)
    (h1 : ValidRequest r1) (h2 : ValidRequest r2)
    (hdiff : v4Bytes b1 ≠ v4Bytes b2) :
    uuidv4 b1 ≠ uuidv4 b2 ∧
    (verifyHandler
        (issuanceHandler (issuanceHandler s r1 b1 d1 i1 true true).2
          r2 b2 d2 i2 true true).2 (uuidv4 b1)).valid = true ∧
    (verifyHandler
        (issuanceHandler (issuanceHandler s r1 b1 d1 i1 true true).2
          r2 b2 d2 i2 true true).2 (uuidv4 b2)).valid = true := by
  have hne : uuidv4 b1 ≠ uuidv4 b2 := fun he => hdiff (uuid_inj b1 b2 he)
  rw [issuanceHandler_valid s r1 b1 d1 i1 true h1]
  rw [issuanceHandler_valid _ r2 b2 d2 i2 true h2]
  refine ⟨hne, ?_, ?_⟩
  · have hget : storeGet
        (storeSet (storeSet s (uuidv4 b1) (issueRecord r1 b1 d1 i1))
          (uuidv4 b2) (issueRecord r2 b2 d2 i2)) (uuidv4 b1) =
        some (issueRecord r1 b1 d1 i1) := by
      rw [storeGet_storeSet_ne _ _ _ _ (Ne.symm hne)]
      exact storeGet_storeSet_self _ _ _
    rw [verifyHandler_eq_of_get_some _ _ _ hget]
  · rw [verifyHandler_eq_of_get_some _ _ _ (storeGet_storeSet_self _ _ _)]

/-- C7 witness: two concrete back-to-back issuances with random inputs
differing in unmasked bits. -/
theorem C7_distinct_ids_witness :
    v4Bytes sampleBytes ≠ v4Bytes sampleBytes2 ∧
    uuidv4 sampleBytes ≠ uuidv4 sampleBytes2 :=
  ⟨by decide,
   (C7_distinct_ids [] sampleRequest sampleRequest sampleBytes sampleBytes2
     ⟨2025, 9, 11⟩ ⟨2025, 9, 11⟩ sampleIso sampleIso (by decide) (by decide)
     (by decide)).1⟩

/-- C8: the record is inserted into the store before PDF rendering begins —
the store after the request is the same whether rendering succeeds or fails —
and when rendering fails after insertion the handler answers the 500 error
while the record remains in the store, so the identifier still verifies as
valid (an orphaned verifiable record). -/
theorem C8_insert_before_render (s : Store) (req : IssueRequest) (rnds : List Nat)
    (now : JsDate) (nowIso : String) (hreq : ValidRequest req) :
    (issuanceHandler s req rnds now nowIso true false).2 =
      (issuanceHandler s req rnds now nowIso true true).2 ∧
    (issuanceHandler s req rnds now nowIso true false).1 =
      IssueResponse.serverError 500 "Failed to generate certificate PDF." ∧
    (verifyHandler (issuanceHandler s req rnds now nowIso true false).2
        (uuidv4 rnds)).valid = true := by
  rw [issuanceHandler_valid s req rnds now nowIso false hreq,
    issuanceHandler_valid s req rnds now nowIso true hreq]
  refine ⟨rfl, by simp, ?_⟩
  rw [verifyHandler_eq_of_get_some _ _ _ (storeGet_storeSet_self _ _ _)]

/-- C8 witness: a concrete issuance whose rendering fails still leaves a
verifiable record behind. -/
theorem C8_insert_before_render_witness :
    ValidRequest sampleRequest ∧
    (verifyHandler (issuanceHandler [] sampleRequest sampleBytes ⟨2025, 9, 11⟩
        sampleIso true false).2 (uuidv4 sampleBytes)).valid = true :=
  ⟨by decide,
   (C8_insert_before_render [] sampleRequest sampleBytes ⟨2025, 9, 11⟩ sampleIso
     (by decide)).2.2⟩

/-- C2 counterexample: the identifier generator is `uuidv4()`; a concrete
issuance on 2025-10-11 with random bytes 0xab…ab produces a plain uuid that
does not contain the issuance date in `YYYYMMDD` form anywhere, so the
claimed prefix + `YYYYMMDD` date + random composition fails on the code. -/
theorem C2_counterexample :
    uuidv4 sampleBytes = "abababab-abab-4bab-abab-abababababab" ∧
    yyyymmdd ⟨2025, 9, 11⟩ = "20251011" ∧
    containsChars (yyyymmdd ⟨2025, 9, 11⟩).data (uuidv4 sampleBytes).data = false ∧
    (issuanceHandler [] sampleRequest sampleBytes ⟨2025, 9, 11⟩ sampleIso
        true true).1 =
      IssueResponse.pdfSuccess 200 "abababab-abab-4bab-abab-abababababab"
        "application/pdf" := by
  decide

/-- C2 amended: every identifier produced by the generator, and returned by
every successful issuance, is a 36-character RFC 4122 version-4 uuid: hyphens
at positions 8, 13, 18 and 23, the version digit `4` at position 14, a
variant digit in 8/9/a/b at position 19, every character a lowercase hex
digit or hyphen, and never empty — not a prefix + date + random composite. -/
theorem C2_uuid_format (s : Store) (req : IssueRequest) (rnds : List Nat)
    (now : JsDate) (nowIso : String) (hreq : ValidRequest req) :
    (issuanceHandler s req rnds now nowIso true true).1 =
      IssueResponse.pdfSuccess 200 (uuidv4 rnds) "application/pdf" ∧
    (uuidv4 rnds).data.length = 36 ∧
    (uuidv4 rnds).data.getD 8 ' ' = '-' ∧
    (uuidv4 rnds).data.getD 13 ' ' = '-' ∧
    (uuidv4 rnds).data.getD 18 ' ' = '-' ∧
    (uuidv4 rnds).data.getD 23 ' ' = '-' ∧
    (uuidv4 rnds).data.getD 14 ' ' = '4' ∧
    (uuidv4 rnds).data.getD 19 ' ' ∈ ['8', '9', 'a', 'b'] ∧
    (∀ c ∈ (uuidv4 rnds).data, c ∈ hexChars ∨ c = '-') ∧
    uuidv4 rnds ≠ "" := by
  refine ⟨?_, ?_, ?_, ?_, ?_, ?_, ?_, ?_, ?_, ?_⟩
  · rw [issuanceHandler_valid s req rnds now nowIso true hreq]
    rfl
  · rw [uuid_data]
    rfl
  · rw [uuid_data]
    rfl
  · rw [uuid_data]
    rfl
  · rw [uuid_data]
    rfl
  · rw [uuid_data]
    rfl
  · rw [uuid_data]
    exact or64_hex _
  · rw [uuid_data]
    exact or128_hex _
  · intro c hc
    rw [uuid_data] at hc
    simp only [List.mem_cons, List.not_mem_nil, or_false] at hc
    rcases hc with rfl | rfl | rfl | rfl | rfl | rfl | rfl | rfl | rfl | rfl |
      rfl | rfl | rfl | rfl | rfl | rfl | rfl | rfl | rfl | rfl | rfl | rfl |
      rfl | rfl | rfl | rfl | rfl | rfl | rfl | rfl | rfl | rfl | rfl | rfl |
      rfl | rfl
    all_goals first
      | exact Or.inl (hexChar_mem_hexChars _)
      | exact Or.inr rfl
  · intro h
    have hnil : (uuidv4 rnds).data = [] := by rw [h]
    rw [uuid_data] at hnil
    simp at hnil

/-- C2 witness: the uuid of a concrete issuance has the version-4 shape. -/
theorem C2_uuid_format_witness :
    ValidRequest sampleRequest ∧ (uuidv4 sampleBytes).data.length = 36 :=
  ⟨by decide,
   (C2_uuid_format [] sampleRequest sampleBytes ⟨2025, 9, 11⟩ sampleIso
     (by decide)).2.1⟩

/-- C9 counterexample: issuing on February 29, 2024 stores an expiry date of
March 01, 2026 — `setFullYear(+2)` rolls the nonexistent February 29, 2026
over into March — which is not the same-month same-day date two years after
the issue date, so "exactly two years after" fails at this input. -/
theorem C9_counterexample :
    ValidDate ⟨2024, 1, 29⟩ ∧
    (issueRecord sampleRequest sampleBytes ⟨2024, 1, 29⟩ sampleIso).issueDate =
      "February 29, 2024" ∧
    (issueRecord sampleRequest sampleBytes ⟨2024, 1, 29⟩ sampleIso).expiryDate =
      "March 01, 2026" ∧
    formatDate ⟨(2024 : Int) + 2, 1, 29⟩ = "February 29, 2026" ∧
    (issueRecord sampleRequest sampleBytes ⟨2024, 1, 29⟩ sampleIso).expiryDate ≠
      formatDate ⟨(2024 : Int) + 2, 1, 29⟩ ∧
    storeGet (issuanceHandler [] sampleRequest sampleBytes ⟨2024, 1, 29⟩ sampleIso
        true true).2 (uuidv4 sampleBytes) =
      some (issueRecord sampleRequest sampleBytes ⟨2024, 1, 29⟩ sampleIso) := by
  decide

/-- C9 amended: every record inserted by issuance has an `expiryDate` that is
the `setFullYear(+2)` date formatted as en-US `Month DD, YYYY`; that date has
the same month and day with the year incremented by two for every valid issue
date except February 29, which (its target year never being a leap year)
becomes March 01; and no issued record is ever in a "no expiry" state. -/
theorem C9_expiry_two_years (s : Store) (req : IssueRequest) (rnds : List Nat)
    (now : JsDate) (nowIso : String) (hreq : ValidRequest req)
    (hd : ValidDate now) :
    storeGet (issuanceHandler s req rnds now nowIso true true).2 (uuidv4 rnds) =
      some (issueRecord req rnds now nowIso) ∧
    (issueRecord req rnds now nowIso).issueDate = formatDate now ∧
    (issueRecord req rnds now nowIso).expiryDate =
      formatDate (setFullYear now (now.year + 2)) ∧
    (¬(now.month = 1 ∧ now.day = 29) →
      setFullYear now (now.year + 2) = ⟨now.year + 2, now.month, now.day⟩) ∧
    ((now.month = 1 ∧ now.day = 29) →
      setFullYear now (now.year + 2) = ⟨now.year + 2, 2, 1⟩) ∧
    (issueRecord req rnds now nowIso).expiryDate ≠ "" := by
  refine ⟨?_, rfl, rfl, ?_, ?_, ?_⟩
  · rw [issuanceHandler_valid s req rnds now nowIso true hreq]
    exact storeGet_storeSet_self _ _ _
  · exact fun h => setFullYear_not_feb29 now _ hd h
  · rintro ⟨hm, hday⟩
    obtain ⟨y, m, dd⟩ := now
    dsimp only at hm hday
    subst hm
    subst hday
    exact setFullYear_feb29 y (isLeapYear_of_feb29_valid y hd)
  · show formatDate (setFullYear now (now.year + 2)) ≠ ""
    exact formatDate_ne_empty _

/-- C9 witness: a concrete issuance on an ordinary date. -/
theorem C9_expiry_two_years_witness :
    ValidRequest sampleRequest ∧ ValidDate ⟨2025, 9, 11⟩ ∧
    (issueRecord sampleRequest sampleBytes ⟨2025, 9, 11⟩ sampleIso).expiryDate =
      formatDate (setFullYear ⟨2025, 9, 11⟩ ((2025 : Int) + 2)) :=
  ⟨by decide, by decide,
   (C9_expiry_two_years [] sampleRequest sampleBytes ⟨2025, 9, 11⟩ sampleIso
     (by decide) (by decide)).2.2.1⟩

/-- C10: the issuance handler trims leading and trailing whitespace from the
submitted name and certificate name before validation and storage — a
whitespace-only name is rejected with the validation error and no store
change, and for valid requests the stored `learnerName` (also returned by
verification) is the trimmed string, as is the certificate name inside the
prefixed `certificateName`. -/
theorem C10_trim (s : Store) (req : IssueRequest) (rnds : List Nat)
    (now : JsDate) (nowIso : String) :
    (jsTrim (req.name.getD "") = "" →
      issuanceHandler s req rnds now nowIso true true =
        (IssueResponse.validationError 400 "Learner name is required.", s)) ∧
    (ValidRequest req →
      storeGet (issuanceHandler s req rnds now nowIso true true).2 (uuidv4 rnds) =
        some (issueRecord req rnds now nowIso) ∧
      (issueRecord req rnds now nowIso).learnerName = jsTrim (req.name.getD "") ∧
      (issueRecord req rnds now nowIso).certificateName =
        jsTrim (CERTIFICATION_PFX ++ " " ++ jsTrim (req.certificateName.getD "")) ∧
      (verifyHandler (issuanceHandler s req rnds now nowIso true true).2
          (uuidv4 rnds)).certificate = some (issueRecord req rnds now nowIso)) := by
  constructor
  · intro hname
    rw [issuanceHandler_invalid s req rnds now nowIso true true
      (fun hv => hv.1 hname)]
    simp [validationMsg, hname]
  · intro hreq
    refine ⟨?_, rfl, rfl, ?_⟩
    · rw [issuanceHandler_valid s req rnds now nowIso true hreq]
      exact storeGet_storeSet_self _ _ _
    · rw [issuanceHandler_valid s req rnds now nowIso true hreq]
      rw [verifyHandler_eq_of_get_some _ _ _ (storeGet_storeSet_self _ _ _)]

/-- C10 witness: a whitespace-only name is rejected, and a padded name is
stored trimmed. -/
theorem C10_trim_witness :
    jsTrim "   " = "" ∧
    issuanceHandler [] blankNameRequest sampleBytes ⟨2025, 9, 11⟩ sampleIso
        true true =
      (IssueResponse.validationError 400 "Learner name is required.", []) ∧
    ValidRequest sampleRequest ∧
    (issueRecord sampleRequest sampleBytes ⟨2025, 9, 11⟩ sampleIso).learnerName =
      "Jane Doe" := by
  refine ⟨by decide, ?_, by decide, ?_⟩
  · exact (C10_trim [] blankNameRequest sampleBytes ⟨2025, 9, 11⟩ sampleIso).1
      (by decide)
  · have h := ((C10_trim [] sampleRequest sampleBytes ⟨2025, 9, 11⟩ sampleIso).2
      (by decide)).2.1
    rw [h]
    decide

end CertGen
